import Mathlib

/-!
Shallow embedding of the tinygo task-based scheduler core
(`src/runtime/scheduler_tasks.go`, build tag `scheduler.tasks`).

Go functions become Lean functions over an explicit runtime state `RState`.
A context switch cannot be modelled as actual control transfer in a pure
embedding, so the platform primitive `tinygo_swapTask` is treated as an
opaque external step: invoking it is recorded as an `Event.platformSwap`
in an event trace, and the functions return the runtime state as it is at
the moment control leaves them.  A call to `runtimePanic` is modelled as
the `Outcome.panicked` outcome carrying the report string; per the runtime
it is fatal and nothing after it executes.

Pieces of the repository that the claims need but that live outside this
source file (the `taskState` struct, `alloc`, `runqueuePushBack`,
`sleepTask`, the channel blocking code and the `tinygo_startTask`
assembly trampoline) are modelled from the spec; each such definition
carries a doc comment starting with `Modelled from the spec:`.
-/

namespace TinyGoSched

/-- Source constant `stackSize = 1024`: the fixed size in bytes of every
goroutine stack region. -/
def stackSize : Nat := 1024

/-- The value of `^uintptr(0)` on a 64-bit target: the all-ones machine word. -/
def uintptrMask : Nat := 2 ^ 64 - 1

/-- Source constant `stackCanary`: the random sentinel
`uintptr(uint64(0x670c1333b83bf575) & uint64(^uintptr(0)))`; the masking
mirrors the cast-to-uintptr bit fiddling of the source. -/
def stackCanary : Nat := 0x670c1333b83bf575 &&& uintptrMask

/-- Modelled from the spec: the status enumeration of the TCB
(`status: one of Runnable, Sleeping, WaitingOnChannel, Finished`).  The
`taskState` struct that would carry it lives in the repository outside this
source file.  `Runnable` is listed first and is the zero value of the
enumeration. -/
inductive TaskStatus
  | Runnable
  | Sleeping
  | WaitingOnChannel
  | Finished
  deriving DecidableEq, Repr

/-- Modelled from the spec: the opaque callee-saved-register record of the
TCB.  Its only observable content in this core is what
`prepareStartTask` stores for the first resume: the goroutine function
and its argument (both machine words, modelled as `Nat`). -/
structure calleeSavedRegs where
  fn : Nat
  args : Nat
  deriving DecidableEq, Repr

/-- Modelled from the spec: the `taskState` scheduling-metadata struct
embedded in the TCB (declared in the repository outside this source file):
a status and the wake deadline (valid only when `status = Sleeping`). -/
structure taskState where
  status : TaskStatus
  wakeTime : Int
  deriving DecidableEq, Repr

/-- The task control block, mirroring the source `task` struct field for
field: embedded `calleeSavedRegs`, `sp`, `pc`, embedded `taskState`, and
the trailing `canary` used to detect stack overflows. -/
structure task where
  regs : calleeSavedRegs
  sp : Nat
  pc : Nat
  tstate : taskState
  canary : Nat
  deriving DecidableEq, Repr

/-- Modelled from the spec: `alloc` (the external runtime allocator) returns
zero-initialized storage, so a freshly allocated TCB has all fields zero;
the zero value of the status enumeration is `Runnable`. -/
def zeroTask : task :=
  { regs := { fn := 0, args := 0 }, sp := 0, pc := 0,
    tstate := { status := .Runnable, wakeTime := 0 }, canary := 0 }

/-- Initial value of the package variable
`schedulerState = task{canary: stackCanary}`: a zero task whose canary
field is set to the sentinel at program start. -/
def schedulerStateInit : task := { zeroTask with canary := stackCanary }

/-- Tasks are identified by their index in the state's task arena. -/
abbrev TaskId := Nat

/-- An execution context: either the dedicated scheduler context
(`schedulerState`) or a goroutine's TCB. -/
inductive Ctx
  | sched
  | tsk (i : TaskId)
  deriving DecidableEq, Repr

/-- The runtime state visible to this core: the TCB arena, the scheduler
context TCB, the global `currentTask` marker (a nil-able pointer, hence
`Option`), the run queue and sleep queue (FIFO lists of task ids,
modelled from the spec since the queues live outside this source file),
the external monotonic clock, and the next address the external allocator
will hand out. -/
structure RState where
  tasks : List task
  schedulerState : task
  currentTask : Option TaskId
  runqueue : List TaskId
  sleepQueue : List TaskId
  now : Int
  nextAlloc : Nat
  deriving DecidableEq, Repr

/-- Observable events emitted by the operations, in program order.
`platformSwap` marks the invocation of the opaque platform primitive
`tinygo_swapTask`; `fieldWrite` records a store into a TCB field at the
given byte offset from the stack region base. -/
inductive Event
  | platformSwap (oldC newC : Ctx)
  | setCurrent (v : Option TaskId)
  | statusWrite (i : TaskId) (st : TaskStatus)
  | sleepInsert (i : TaskId) (wake : Int)
  | pushBack (i : TaskId)
  | allocEv (base size : Nat)
  | fieldWrite (off v : Nat)
  deriving DecidableEq, Repr

/-- Outcome of an operation: normal continuation with the resulting state,
or a fatal `runtimePanic` with its report string (nothing executes after
a panic). -/
inductive Outcome
  | ok (s : RState)
  | panicked (msg : String)
  deriving DecidableEq, Repr

/-- Dereference a context: the scheduler context is the `schedulerState`
TCB, a task context is its arena entry (`none` models a dangling/nil
pointer). -/
def getCtx (s : RState) (c : Ctx) : Option task :=
  match c with
  | .sched => some s.schedulerState
  | .tsk i => s.tasks[i]?

/-- Source `swapTask(oldTask, newTask)`: first compares `oldTask.canary`
to `stackCanary`; on mismatch calls
`runtimePanic("goroutine stack overflow")`, so the platform primitive is
never invoked; otherwise delegates to `swapTaskLower` (the opaque
platform switch), recorded as a `platformSwap` event.  A nil `oldTask`
pointer would fault on the field read, modelled as a panic. -/
def swapTask (s : RState) (oldC newC : Ctx) : Outcome × List Event :=
  match getCtx s oldC with
  | none => (.panicked "nil pointer dereference", [])
  | some o =>
    if o.canary ≠ stackCanary then
      (.panicked "goroutine stack overflow", [])
    else
      (.ok s, [.platformSwap oldC newC])

/-- Source `(*task).resume()`: sets the global `currentTask` marker to this
task, switches from the scheduler context into it via `swapTask`, and on
return clears the marker back to nil. -/
def resume (s : RState) (i : TaskId) : Outcome × List Event :=
  let s1 : RState := { s with currentTask := some i }
  match swapTask s1 .sched (.tsk i) with
  | (.ok s2, tr) =>
      (.ok { s2 with currentTask := none },
       .setCurrent (some i) :: tr ++ [.setCurrent none])
  | (.panicked m, tr) => (.panicked m, .setCurrent (some i) :: tr)

/-- Source `Goexit()`: terminates the current goroutine by swapping
directly to the scheduler context, without rescheduling first; no
deferred calls are run (the function body is the single `swapTask`). -/
def Goexit (s : RState) : Outcome × List Event :=
  match s.currentTask with
  | none => (.panicked "nil pointer dereference", [])
  | some i => swapTask s (.tsk i) .sched

/-- Source `deadlock()`: called when a goroutine cannot proceed any more;
its body is exactly a call to `Goexit()`. -/
def deadlock (s : RState) : Outcome × List Event :=
  Goexit s

/-- Source `chanYield()`: suspends the current goroutine for the channel
implementation; its body is exactly a call to `Goexit()`. -/
def chanYield (s : RState) : Outcome × List Event :=
  Goexit s

/-- Source `getCoroutine()`: returns the currently executing goroutine. -/
def getCoroutine (s : RState) : Option TaskId :=
  s.currentTask

/-- Source `(*task).state()`: returns the task's embedded `taskState`. -/
def task.state (t : task) : taskState :=
  t.tstate

/-- Source `reactivateParent(t)`: a no-op for the task-based scheduler. -/
def reactivateParent (s : RState) (_t : TaskId) : RState :=
  s

/-- Overwrite the status field of task `i` in the arena (identity when `i`
is out of range). -/
def setStatus (s : RState) (i : TaskId) (st : TaskStatus) : RState :=
  match s.tasks[i]? with
  | none => s
  | some t =>
      { s with tasks := s.tasks.set i { t with tstate := { t.tstate with status := st } } }

/-- Modelled from the spec: a blocking channel send/receive (the channel
implementation lives in the repository outside this source file) sets the
current task's status to `WaitingOnChannel`, records the TCB on the
channel's internal wait-list (owned by the channel, outside this core and
therefore not part of `RState`), and then calls this core's `chanYield`
to switch to the scheduler context. -/
def chanBlock (s : RState) : Outcome × List Event :=
  match s.currentTask with
  | none => (.panicked "nil pointer dereference", [])
  | some i =>
      let s1 := setStatus s i .WaitingOnChannel
      let r := chanYield s1
      (r.1, .statusWrite i .WaitingOnChannel :: r.2)

/-- Modelled from the spec: `sleepTask(t, d)` (declared in the repository
outside this source file) registers task `i` as sleeping: it computes the
wake deadline `now() + d`, sets the status to `Sleeping`, and inserts the
task into the sleep queue. -/
def sleepTask (s : RState) (i : TaskId) (d : Int) : RState × List Event :=
  match s.tasks[i]? with
  | none => (s, [])
  | some t =>
      ({ s with
          tasks := s.tasks.set i
            { t with tstate := { status := .Sleeping, wakeTime := s.now + d } },
          sleepQueue := s.sleepQueue ++ [i] },
       [.statusWrite i .Sleeping, .sleepInsert i (s.now + d)])

/-- Source `sleep(d)` (linked as `time.Sleep`): first calls
`sleepTask(currentTask, d)` and only then swaps from the current task to
the scheduler context. -/
def sleep (s : RState) (d : Int) : Outcome × List Event :=
  match s.currentTask with
  | none => (.panicked "nil pointer dereference", [])
  | some i =>
      let r1 := sleepTask s i d
      let r2 := swapTask r1.1 (.tsk i) .sched
      (r2.1, r1.2 ++ r2.2)

/-! Memory layout of the `task` struct at the base of the stack region.
The struct is placed at the lowest address of the allocated region
("this type points to the bottom of the goroutine stack"); field offsets
follow the declaration order, which the source requires to be kept in
sync with the platform assembly.  The concrete byte sizes of the
callee-saved-register record and of `taskState` are platform constants
outside this source file; representative 64-bit values are used. -/

/-- Word size in bytes on the modelled 64-bit target. -/
def wordSize : Nat := 8

/-- Modelled from the spec: byte size of the platform's callee-saved
register record (platform-specific, outside this source file). -/
def regsSize : Nat := 96

/-- Modelled from the spec: byte size of the `taskState` metadata struct
(declared in the repository outside this source file). -/
def stateSize : Nat := 16

/-- Byte offset of the `fn` slot `prepareStartTask` fills (inside the
register record at the front of the struct). -/
def fnOffset : Nat := 0

/-- Byte offset of the `args` slot `prepareStartTask` fills. -/
def argsOffset : Nat := wordSize

/-- Byte offset of the `sp` field. -/
def spOffset : Nat := regsSize

/-- Byte offset of the `pc` field. -/
def pcOffset : Nat := regsSize + wordSize

/-- Byte offset of the trailing `canary` field. -/
def canaryOffset : Nat := regsSize + 2 * wordSize + stateSize

/-- Total byte size of the `task` struct placed at the region base. -/
def taskStructSize : Nat := canaryOffset + wordSize

/-- Modelled from the spec: the address of the `tinygo_startTask` assembly
trampoline (an external symbol; only its identity matters here). -/
def startTaskAddr : Nat := 0x4000

/-- Modelled from the spec: `(*task).prepareStartTask(fn, args)`
(platform-specific, outside this source file) stores the goroutine
function and its argument where the `startTask` trampoline will find
them on the very first resume. -/
def task.prepareStartTask (t : task) (fn args : Nat) : task :=
  { t with regs := { fn := fn, args := args } }

/-- One step of the `startTask` trampoline's observable behavior. -/
inductive TrampStep
  | call (fn args : Nat)
  | goexit
  deriving DecidableEq, Repr

/-- Modelled from the spec: what the `tinygo_startTask` trampoline does
when a freshly created task is resumed for the first time: it calls the
stored goroutine function with its stored argument, and performs
goroutine exit automatically if the function returns. -/
def startTaskBehavior (t : task) : List TrampStep :=
  [.call t.regs.fn t.regs.args, .goexit]

/-- Source `startGoroutine(fn, args)`: allocates a fresh `stackSize`-byte
stack region (the external `alloc`, modelled as bumping `nextAlloc` and
returning zeroed storage), places the TCB at the region base, sets
`sp = stack + stackSize`, sets `pc` to the `startTask` trampoline, calls
`prepareStartTask(fn, args)`, writes the canary, and pushes the new task
to the back of the run queue (`runqueuePushBack`, declared in the
repository outside this source file, modelled from the spec as FIFO
append).  Each TCB field store is recorded as a `fieldWrite` at its byte
offset within the new region. -/
def startGoroutine (s : RState) (fn args : Nat) : RState × List Event :=
  let base := s.nextAlloc
  let t0 := zeroTask
  let t1 := { t0 with sp := base + stackSize }
  let t2 := { t1 with pc := startTaskAddr }
  let t3 := t2.prepareStartTask fn args
  let t4 := { t3 with canary := stackCanary }
  let i := s.tasks.length
  ({ s with
      tasks := s.tasks ++ [t4],
      nextAlloc := base + stackSize,
      runqueue := s.runqueue ++ [i] },
   [.allocEv base stackSize,
    .fieldWrite spOffset (base + stackSize),
    .fieldWrite pcOffset startTaskAddr,
    .fieldWrite fnOffset fn,
    .fieldWrite argsOffset args,
    .fieldWrite canaryOffset stackCanary,
    .pushBack i])

/-- The runtime state at program start: no goroutines yet, the package
variables at their initializers (`schedulerState = task{canary:
stackCanary}`, `currentTask = nil`), empty queues, the external clock at
zero, and a representative heap base for the external allocator. -/
def initialState : RState :=
  { tasks := [], schedulerState := schedulerStateInit, currentTask := none,
    runqueue := [], sleepQueue := [], now := 0, nextAlloc := 4096 }

/-- A concrete running task used by the concrete-state examples: fresh
except that it is marked as currently executing. -/
def exTask : task :=
  { zeroTask with sp := 4096 + stackSize, pc := startTaskAddr, canary := stackCanary }

/-- A concrete runtime state in which task 0 is currently running. -/
def exRun : RState :=
  { tasks := [exTask], schedulerState := schedulerStateInit,
    currentTask := some 0, runqueue := [], sleepQueue := [], now := 5,
    nextAlloc := 4096 + stackSize }

/-- A concrete runtime state whose running task has a corrupted canary. -/
def exSmashed : RState :=
  { exRun with tasks := [{ exTask with canary := 0 }] }

/-- Claim C1: every call to `swapTask(oldTask, newTask)` compares
`oldTask.canary` to the fixed sentinel before the platform switch
primitive runs: on mismatch it halts fatally with the stack-overflow
report `"goroutine stack overflow"` and no `platformSwap` event occurs
(the platform primitive is never reached); on match the switch proceeds
with exactly the platform swap.  The check is part of `swapTask` itself,
so it runs on every switch away from a running context, not
periodically. -/
theorem swapTask_canary_guard (s : RState) (oldC newC : Ctx) (o : task)
    (h : getCtx s oldC = some o) :
    (o.canary ≠ stackCanary →
      swapTask s oldC newC = (.panicked "goroutine stack overflow", [])) ∧
    (o.canary = stackCanary →
      swapTask s oldC newC = (.ok s, [.platformSwap oldC newC])) := by
  unfold swapTask
  rw [h]
  constructor
  · intro hne
    simp [hne]
  · intro heq
    simp [heq]

/-- Witness for C1: at the concrete smashed-canary state the switch halts
with the stack-overflow report, and at the healthy state it reaches the
platform primitive. -/
theorem swapTask_canary_guard_witness :
    swapTask exSmashed (.tsk 0) .sched = (.panicked "goroutine stack overflow", []) ∧
    swapTask exRun (.tsk 0) .sched = (.ok exRun, [.platformSwap (.tsk 0) .sched]) :=
  ⟨(swapTask_canary_guard exSmashed (.tsk 0) .sched { exTask with canary := 0 } rfl).1
      (by decide),
   (swapTask_canary_guard exRun (.tsk 0) .sched exTask rfl).2 rfl⟩

/-- Counterexample to claim C2 as stated: at the concrete state `exRun`
whose running task 0 has status `Runnable`, `Goexit` returns the state
unchanged — the exiting task's status is still `Runnable` afterwards,
not `Finished`, so goroutine exit does not set the status to
`Finished`. -/
theorem Goexit_status_cex :
    Goexit exRun = (.ok exRun, [.platformSwap (.tsk 0) .sched]) ∧
    (exRun.tasks[0]?).map (fun t => t.tstate.status) = some .Runnable ∧
    TaskStatus.Runnable ≠ .Finished :=
  ⟨rfl, rfl, by decide⟩

/-- Claim C2 as amended: on goroutine exit (explicit `Goexit`, also the
path the trampoline takes on normal completion), no deferred cleanup is
run and no task status is modified — in particular the status is not set
to `Finished` — and the task yields to the scheduler context
permanently: the runtime state is returned unchanged, so the TCB is not
re-enqueued on the run queue and the sole observable event is the switch
to the scheduler context. -/
theorem Goexit_yields_permanently (s : RState) (i : TaskId) (t : task)
    (hc : s.currentTask = some i) (ht : s.tasks[i]? = some t)
    (hcan : t.canary = stackCanary) :
    Goexit s = (.ok s, [.platformSwap (.tsk i) .sched]) := by
  unfold Goexit swapTask getCtx
  rw [hc]
  simp [ht, hcan]

/-- Witness for the amended C2 at the concrete running state. -/
theorem Goexit_yields_permanently_witness :
    Goexit exRun = (.ok exRun, [.platformSwap (.tsk 0) .sched]) :=
  Goexit_yields_permanently exRun 0 exTask rfl rfl rfl

/-- Claim C3: `resume(t)` sets the global current-task marker to `t`
before the switch from the scheduler context into `t`, and clears it
back to `none` when the switch returns to the scheduler context: the
resulting state has `currentTask = none`, and the event trace is exactly
the marker set, then the platform swap (performed while the marker is
`some i`), then the marker clear — the marker is non-none exactly during
the dynamic extent of `resume`. -/
theorem resume_marker_extent (s : RState) (i : TaskId)
    (h : s.schedulerState.canary = stackCanary) :
    resume s i =
      (.ok { s with currentTask := none },
       [.setCurrent (some i), .platformSwap .sched (.tsk i), .setCurrent none]) := by
  unfold resume swapTask getCtx
  simp [h]

/-- Witness for C3 at the concrete running state. -/
theorem resume_marker_extent_witness :
    resume exRun 0 =
      (.ok { exRun with currentTask := none },
       [.setCurrent (some 0), .platformSwap .sched (.tsk 0), .setCurrent none]) :=
  resume_marker_extent exRun 0 rfl

/-- Claim C6: `deadlock()` behaves exactly as `Goexit()`: the two
operations agree on every runtime state (identical state changes and
identical event traces), and when a task with an intact canary is
running, both amount to the permanent yield to the scheduler context
that abandons the task: the state is unchanged (the task is never
re-enqueued, hence never resumed) and the only event is the switch to
the scheduler. -/
theorem deadlock_eq_Goexit (s : RState) :
    deadlock s = Goexit s ∧
    (∀ i t, s.currentTask = some i → s.tasks[i]? = some t →
      t.canary = stackCanary →
      deadlock s = (.ok s, [.platformSwap (.tsk i) .sched])) := by
  refine ⟨rfl, fun i t hc ht hcan => ?_⟩
  unfold deadlock Goexit swapTask getCtx
  rw [hc]
  simp [ht, hcan]

/-- Witness for C6 at the concrete running state. -/
theorem deadlock_eq_Goexit_witness :
    deadlock exRun = Goexit exRun ∧
    deadlock exRun = (.ok exRun, [.platformSwap (.tsk 0) .sched]) :=
  ⟨(deadlock_eq_Goexit exRun).1, (deadlock_eq_Goexit exRun).2 0 exTask rfl rfl rfl⟩

/-- Claim C10: the dedicated scheduler-context TCB is initialized at
program start with its canary equal to the sentinel
(`schedulerState = task{canary: stackCanary}`), so the overflow check of
`swapTask` also guards every switch away from the scheduler context in
`resume`, and that check passes — never halts — as long as the scheduler
TCB is unmodified since initialization. -/
theorem schedulerState_guard_passes (s : RState) (i : TaskId)
    (h : s.schedulerState = schedulerStateInit) :
    schedulerStateInit.canary = stackCanary ∧
    swapTask s .sched (.tsk i) = (.ok s, [.platformSwap .sched (.tsk i)]) ∧
    resume s i =
      (.ok { s with currentTask := none },
       [.setCurrent (some i), .platformSwap .sched (.tsk i), .setCurrent none]) := by
  refine ⟨rfl, ?_, ?_⟩
  · unfold swapTask getCtx
    simp [h, schedulerStateInit]
  · unfold resume swapTask getCtx
    simp [h, schedulerStateInit]

/-- The TCB of task `t` after the modelled channel block marks it as
waiting on a channel. -/
def waitingTCB (t : task) : task :=
  { t with tstate := { t.tstate with status := .WaitingOnChannel } }

/-- The TCB of task `t` after `sleepTask` registers it with wake
deadline `w`. -/
def sleepingTCB (t : task) (w : Int) : task :=
  { t with tstate := { status := .Sleeping, wakeTime := w } }

/-- The TCB that `startGoroutine fn args` builds at the base of the fresh
stack region starting at `base`. -/
def spawnedTCB (base fn args : Nat) : task :=
  { regs := { fn := fn, args := args }, sp := base + stackSize, pc := startTaskAddr,
    tstate := { status := .Runnable, wakeTime := 0 }, canary := stackCanary }

/-- Claim C5: when a task suspends for a blocking channel send/receive,
its status is set to `WaitingOnChannel` before it yields to the
scheduler context: the `statusWrite` event strictly precedes the
`platformSwap` event in the trace, and the final state records task `i`
with status `WaitingOnChannel` (the wait-list recording is owned by the
channel, outside this core). -/
theorem chanBlock_waiting_before_yield (s : RState) (i : TaskId) (t : task)
    (hc : s.currentTask = some i) (ht : s.tasks[i]? = some t)
    (hcan : t.canary = stackCanary) :
    chanBlock s =
      (.ok { s with tasks := s.tasks.set i (waitingTCB t) },
       [.statusWrite i .WaitingOnChannel, .platformSwap (.tsk i) .sched]) ∧
    ((s.tasks.set i (waitingTCB t))[i]?).map (fun u => u.tstate.status)
      = some .WaitingOnChannel := by
  have hlt : i < s.tasks.length := (List.getElem?_eq_some.mp ht).1
  have hset : (s.tasks.set i (waitingTCB t))[i]? = some (waitingTCB t) :=
    List.getElem?_set_self (by simpa using hlt)
  constructor
  · unfold chanBlock setStatus chanYield Goexit swapTask getCtx
    rw [hc]
    simp only [ht]
    unfold waitingTCB at hset ⊢
    rw [hset]
    simp [hcan]
  · rw [hset]
    simp [waitingTCB]

/-- Witness for C5 at the concrete running state. -/
theorem chanBlock_waiting_before_yield_witness :
    chanBlock exRun =
      (.ok { exRun with tasks := [waitingTCB exTask] },
       [.statusWrite 0 .WaitingOnChannel, .platformSwap (.tsk 0) .sched]) :=
  (chanBlock_waiting_before_yield exRun 0 exTask rfl rfl rfl).1

/-- Claim C7: `sleep(d)` first registers the running task as sleeping —
status set to `Sleeping`, wake deadline `now() + d` stored, task
appended to the sleep queue — and only after that registration does it
switch from the task to the scheduler context: in the trace the
`statusWrite` and `sleepInsert` events strictly precede the
`platformSwap` event. -/
theorem sleep_registers_then_yields (s : RState) (i : TaskId) (t : task) (d : Int)
    (hc : s.currentTask = some i) (ht : s.tasks[i]? = some t)
    (hcan : t.canary = stackCanary) :
    sleep s d =
      (.ok { s with
          tasks := s.tasks.set i (sleepingTCB t (s.now + d)),
          sleepQueue := s.sleepQueue ++ [i] },
       [.statusWrite i .Sleeping, .sleepInsert i (s.now + d),
        .platformSwap (.tsk i) .sched]) := by
  have hlt : i < s.tasks.length := (List.getElem?_eq_some.mp ht).1
  have hset : (s.tasks.set i (sleepingTCB t (s.now + d)))[i]?
      = some (sleepingTCB t (s.now + d)) :=
    List.getElem?_set_self (by simpa using hlt)
  unfold sleep sleepTask swapTask getCtx
  rw [hc]
  simp only [ht]
  unfold sleepingTCB at hset ⊢
  rw [hset]
  simp [hcan]

/-- Witness for C7 at the concrete running state. -/
theorem sleep_registers_then_yields_witness :
    sleep exRun 10 =
      (.ok { exRun with
          tasks := [sleepingTCB exTask 15],
          sleepQueue := [0] },
       [.statusWrite 0 .Sleeping, .sleepInsert 0 15,
        .platformSwap (.tsk 0) .sched]) :=
  sleep_registers_then_yields exRun 0 exTask 10 rfl rfl rfl

/-- Claim C4: `startGoroutine(fn, args)` allocates a fresh stack (the
trace opens with the allocation of a `stackSize`-byte region at the next
free address), builds a fresh TCB whose status is `Runnable` and whose
resume address `pc` is the `startTask` trampoline — so the very first
resume calls `fn` with `args` and performs goroutine exit if `fn`
returns — and pushes the TCB to the back of the run queue. -/
theorem startGoroutine_spawn (s : RState) (fn args : Nat) :
    ∃ t : task,
      (startGoroutine s fn args).1.tasks[s.tasks.length]? = some t ∧
      t.tstate.status = .Runnable ∧
      t.pc = startTaskAddr ∧
      startTaskBehavior t = [.call fn args, .goexit] ∧
      (startGoroutine s fn args).1.runqueue = s.runqueue ++ [s.tasks.length] ∧
      ((startGoroutine s fn args).2).head? = some (.allocEv s.nextAlloc stackSize) := by
  refine ⟨{ regs := { fn := fn, args := args }, sp := s.nextAlloc + stackSize,
            pc := startTaskAddr, tstate := { status := .Runnable, wakeTime := 0 },
            canary := stackCanary }, ?_, rfl, rfl, rfl, rfl, rfl⟩
  exact List.getElem?_concat_length s.tasks _

/-- Events that store into the canary slot of the new TCB. -/
def isCanaryWrite : Event → Bool
  | .fieldWrite off _ => off == canaryOffset
  | _ => false

/-- Claim C8: during task creation the sentinel is written exactly once
into the canary slot — the filtered write trace of `startGoroutine` is
the single store of `stackCanary` at `canaryOffset` — and that slot lies
inside the TCB struct placed at the lowest-address end of the freshly
allocated region (the slot ends within the struct, and the struct fits
within the `stackSize`-byte region whose opposite, highest-address end
is where the descending stack pointer starts), so every freshly spawned
task's canary equals the sentinel before it first executes. -/
theorem canary_written_once_at_low_end (s : RState) (fn args : Nat) :
    ((startGoroutine s fn args).2).filter isCanaryWrite
      = [.fieldWrite canaryOffset stackCanary] ∧
    canaryOffset + wordSize ≤ taskStructSize ∧
    taskStructSize ≤ stackSize ∧
    ∃ t, (startGoroutine s fn args).1.tasks[s.tasks.length]? = some t ∧
      t.canary = stackCanary := by
  refine ⟨?_, by decide, by decide,
    ⟨{ regs := { fn := fn, args := args }, sp := s.nextAlloc + stackSize,
       pc := startTaskAddr, tstate := { status := .Runnable, wakeTime := 0 },
       canary := stackCanary }, List.getElem?_concat_length s.tasks _, rfl⟩⟩
  simp [startGoroutine, isCanaryWrite, List.filter, spOffset, pcOffset, fnOffset,
    argsOffset, canaryOffset, regsSize, wordSize, stateSize]

/-- The TCB produced by spawning one goroutine from the program-start
state (allocator base 4096). -/
def spawnedTask : Option task :=
  ((startGoroutine initialState 7 3).1.tasks)[0]?

/-- Counterexample to claim C9 as stated: spawning from the program-start
state, whose allocator hands out the region `[4096, 4096 + 1024)`, sets
the new TCB's stack pointer to `5120 = 4096 + stackSize`, which is NOT
in the half-open range from the region base to base plus the stack size
(`¬ 5120 < 4096 + 1024`). -/
theorem spawned_sp_cex :
    spawnedTask.map (fun t => t.sp) = some 5120 ∧
    initialState.nextAlloc = 4096 ∧ stackSize = 1024 ∧
    ¬ (5120 < 4096 + 1024) :=
  ⟨rfl, rfl, rfl, by decide⟩

/-- Claim C9 as amended: for every freshly spawned task, the TCB's stack
pointer equals the region base plus the fixed stack size — the address
one past the highest byte of the task's own stack region, the initial
resume point of a descending stack — so it lies in the half-open range
from the base (exclusive) to base plus stack size (inclusive). -/
theorem spawned_sp_top_of_region (s : RState) (fn args : Nat) :
    ∃ t : task,
      (startGoroutine s fn args).1.tasks[s.tasks.length]? = some t ∧
      t.sp = s.nextAlloc + stackSize ∧
      s.nextAlloc < t.sp ∧ t.sp ≤ s.nextAlloc + stackSize := by
  refine ⟨{ regs := { fn := fn, args := args }, sp := s.nextAlloc + stackSize,
            pc := startTaskAddr, tstate := { status := .Runnable, wakeTime := 0 },
            canary := stackCanary }, List.getElem?_concat_length s.tasks _, rfl, ?_, le_refl _⟩
  show s.nextAlloc < s.nextAlloc + stackSize
  have : 0 < stackSize := by decide
  omega

/-- Witness for C10 at the program-start state. -/
theorem schedulerState_guard_passes_witness :
    schedulerStateInit.canary = stackCanary ∧
    swapTask initialState .sched (.tsk 0) =
      (.ok initialState, [.platformSwap .sched (.tsk 0)]) ∧
    resume initialState 0 =
      (.ok { initialState with currentTask := none },
       [.setCurrent (some 0), .platformSwap .sched (.tsk 0), .setCurrent none]) :=
  schedulerState_guard_passes initialState 0 rfl

end TinyGoSched
